import Mathlib

/-!
Shallow embedding of the eviction/expiration bookkeeping core of the
`moka` cache library: the region queue set (`src/unsync/deques.rs`) and
the cache builder (`src/sync/builder.rs`).

Rust panics (`panic!`, `unreachable!`, `Option::unwrap` on `None`,
`assert!` failures) are modelled as `Except.error` with the panic
message; normal returns are `Except.ok`.  Heap addresses of queue nodes
are modelled by a `Nat` identity (`nid`); a queue is the front-to-back
list of its nodes, and membership is identity based, as the intrusive
list's `contains` is.
-/

namespace Moka

/-- The four queue/region tags (`crate::common::deque::CacheRegion`).
Modelled from the spec: the `CacheRegion` enum is not under `src/`; the
spec fixes exactly the four variants `Window`, `MainProbation`,
`MainProtected`, `WriteOrder`. -/
inductive CacheRegion where
  | Window
  | MainProbation
  | MainProtected
  | WriteOrder
deriving DecidableEq, Repr

/-- Payload of the three access-order queues (`KeyHashDate<K>`).
Modelled from the spec: key, a precomputed hash, and a recorded
timestamp treated as opaque data. -/
structure KeyHashDate (K : Type) where
  key : K
  hash : Nat
  timestamp : Option Nat
deriving DecidableEq, Repr

/-- Payload of the write-order queue (`KeyDate<K>`).  Modelled from the
spec: key and the timestamp of last write, treated as opaque data. -/
structure KeyDate (K : Type) where
  key : K
  timestamp : Option Nat
deriving DecidableEq, Repr

/-- A queue node (`DeqNode<T>`).  Modelled from the spec: a payload and
the owning region tag; the prev/next links live in the queue's node
list, and the node's heap address is modelled by the identity `nid`. -/
structure DeqNode (T : Type) where
  nid : Nat
  region : CacheRegion
  element : T
deriving DecidableEq, Repr

/-- Rendering used for the `{:?}` debug formatting of payloads inside
panic messages. -/
class DebugFmt (T : Type) where
  fmt : T → String

instance : DebugFmt Nat := ⟨fun n => Nat.repr n⟩

instance (K : Type) [DebugFmt K] : DebugFmt (KeyHashDate K) :=
  ⟨fun p => "KeyHashDate \x7b key: " ++ DebugFmt.fmt p.key ++ " \x7d"⟩

instance (K : Type) [DebugFmt K] : DebugFmt (KeyDate K) :=
  ⟨fun p => "KeyDate \x7b key: " ++ DebugFmt.fmt p.key ++ " \x7d"⟩

/-- The `{:?}` rendering of a whole node: it reports the node's payload
contents. -/
def DeqNode.debugFmt {T : Type} [DebugFmt T] (node : DeqNode T) : String :=
  "DeqNode \x7b element: " ++ DebugFmt.fmt node.element ++ " \x7d"

/-- An intrusive queue (`crate::common::deque::Deque<T>`).  Modelled
from the spec: an intrusive doubly-linked list with a region tag,
rendered as the front-to-back list of its nodes. -/
structure Deque (T : Type) where
  region : CacheRegion
  nodes : List (DeqNode T)
deriving DecidableEq, Repr

/-- `Deque::new(region)`: a fresh empty queue.  Modelled from the spec. -/
def Deque.new {T : Type} (region : CacheRegion) : Deque T :=
  ⟨region, []⟩

/-- `Deque::contains`: identity-based membership test.  Modelled from
the spec: membership is decided by node identity (address), not payload
equality. -/
def Deque.contains {T : Type} (deq : Deque T) (node : DeqNode T) : Bool :=
  deq.nodes.any fun m => m.nid == node.nid

/-- `Deque::push_back(node)`: appends at the tail and returns a stable
reference to the node.  Modelled from the spec. -/
def Deque.push_back {T : Type} (deq : Deque T) (node : DeqNode T) :
    Deque T × DeqNode T :=
  ({ deq with nodes := deq.nodes ++ [node] }, node)

/-- `Deque::move_to_back(nodeRef)`: relinks the referenced node to the
tail position.  Modelled from the spec; the caller guarantees
membership (every call site below checks `contains` first), so the
not-found branch is never reached by the operations embedded here. -/
def Deque.move_to_back {T : Type} (deq : Deque T) (node : DeqNode T) : Deque T :=
  match deq.nodes.find? (fun m => m.nid == node.nid) with
  | some m => { deq with nodes := (deq.nodes.filter fun m' => m'.nid != node.nid) ++ [m] }
  | none => deq

/-- `Deque::unlink_and_drop(nodeRef)`: removes the referenced node from
the list and disposes it.  Modelled from the spec. -/
def Deque.unlink_and_drop {T : Type} (deq : Deque T) (node : DeqNode T) : Deque T :=
  { deq with nodes := deq.nodes.filter fun m => m.nid != node.nid }

/-- The cache's stored record for a key (`ValueEntry<K, V>`).  Modelled
from the spec: the value plus an optional back-reference into the
access-order queue system and an optional back-reference into the
write-order queue. -/
structure ValueEntry (K V : Type) where
  value : V
  access_order_q_node : Option (DeqNode (KeyHashDate K))
  write_order_q_node : Option (DeqNode (KeyDate K))
deriving DecidableEq, Repr

/-- `ValueEntry::set_access_order_q_node`.  Modelled from the spec. -/
def ValueEntry.set_access_order_q_node {K V : Type} (entry : ValueEntry K V)
    (node : Option (DeqNode (KeyHashDate K))) : ValueEntry K V :=
  { entry with access_order_q_node := node }

/-- `ValueEntry::set_write_order_q_node`.  Modelled from the spec. -/
def ValueEntry.set_write_order_q_node {K V : Type} (entry : ValueEntry K V)
    (node : Option (DeqNode (KeyDate K))) : ValueEntry K V :=
  { entry with write_order_q_node := node }

/-- `ValueEntry::take_access_order_q_node`: consumes the back-reference,
leaving it absent.  Modelled from the spec. -/
def ValueEntry.take_access_order_q_node {K V : Type} (entry : ValueEntry K V) :
    Option (DeqNode (KeyHashDate K)) × ValueEntry K V :=
  (entry.access_order_q_node, { entry with access_order_q_node := none })

/-- `ValueEntry::take_write_order_q_node`.  Modelled from the spec. -/
def ValueEntry.take_write_order_q_node {K V : Type} (entry : ValueEntry K V) :
    Option (DeqNode (KeyDate K)) × ValueEntry K V :=
  (entry.write_order_q_node, { entry with write_order_q_node := none })

/-- The aggregate of the four queues (`Deques<K>` in
`src/unsync/deques.rs`). -/
structure Deques (K : Type) where
  window : Deque (KeyHashDate K)
  probation : Deque (KeyHashDate K)
  «protected» : Deque (KeyHashDate K)
  write_order : Deque (KeyDate K)
deriving DecidableEq, Repr

/-- `Deques::default()`: four empty queues with their region tags
(`impl Default for Deques<K>`). -/
def Deques.default (K : Type) : Deques K :=
  ⟨Deque.new CacheRegion.Window, Deque.new CacheRegion.MainProbation,
   Deque.new CacheRegion.MainProtected, Deque.new CacheRegion.WriteOrder⟩

/-- `Deques::clear`: discards and recreates all four queues empty. -/
def Deques.clear {K : Type} (_self : Deques K) : Deques K :=
  Deques.default K

/-- The panic message of `unlink_node_ao_from_deque` / `unlink_node_wo`:
`panic!("unlink_node - node is not a member of {} deque. {:?}", deq_name, node)`. -/
def unlinkPanicMsg {T : Type} [DebugFmt T] (deq_name : String) (node : DeqNode T) : String :=
  "unlink_node - node is not a member of " ++ deq_name ++ " deque. " ++ node.debugFmt

/-- `Deques::push_back_ao`: creates a node tagged with `region`, appends
it to the queue matching the node's region, and stores the reference as
the entry's access-order back-reference; `WriteOrder` hits
`unreachable!()`.  The fresh node's address is supplied as `nid`. -/
def Deques.push_back_ao {K V : Type} (self : Deques K) (region : CacheRegion)
    (kh : KeyHashDate K) (nid : Nat) (entry : ValueEntry K V) :
    Except String (Deques K × ValueEntry K V) :=
  let node : DeqNode (KeyHashDate K) := ⟨nid, region, kh⟩
  match node.region with
  | CacheRegion.Window =>
      let (deq, node) := self.window.push_back node
      Except.ok ({ self with window := deq },
        entry.set_access_order_q_node (some node))
  | CacheRegion.MainProbation =>
      let (deq, node) := self.probation.push_back node
      Except.ok ({ self with probation := deq },
        entry.set_access_order_q_node (some node))
  | CacheRegion.MainProtected =>
      let (deq, node) := self.«protected».push_back node
      Except.ok ({ self with «protected» := deq },
        entry.set_access_order_q_node (some node))
  | CacheRegion.WriteOrder =>
      Except.error "internal error: entered unreachable code"

/-- `Deques::push_back_wo`: creates a `WriteOrder`-tagged node, appends
it to the write-order queue, and stores the reference as the entry's
write-order back-reference.  Never panics. -/
def Deques.push_back_wo {K V : Type} (self : Deques K) (kh : KeyDate K) (nid : Nat)
    (entry : ValueEntry K V) : Deques K × ValueEntry K V :=
  let node : DeqNode (KeyDate K) := ⟨nid, CacheRegion.WriteOrder, kh⟩
  let (deq, node) := self.write_order.push_back node
  ({ self with write_order := deq }, entry.set_write_order_q_node (some node))

/-- `Deques::move_to_back_ao`: `entry.access_order_q_node().unwrap()`
(panic on `None`), then a guarded match on the node's region that moves
the node to the back of its region's queue only when that queue
`contains` it; all other cases fall through to `_ => \x7b\x7d`. -/
def Deques.move_to_back_ao {K V : Type} (self : Deques K) (entry : ValueEntry K V) :
    Except String (Deques K) :=
  match entry.access_order_q_node with
  | none => Except.error "called `Option::unwrap()` on a `None` value"
  | some node =>
    match node.region with
    | CacheRegion.Window =>
        if self.window.contains node then
          Except.ok { self with window := self.window.move_to_back node }
        else Except.ok self
    | CacheRegion.MainProbation =>
        if self.probation.contains node then
          Except.ok { self with probation := self.probation.move_to_back node }
        else Except.ok self
    | CacheRegion.MainProtected =>
        if self.«protected».contains node then
          Except.ok { self with «protected» := self.«protected».move_to_back node }
        else Except.ok self
    | CacheRegion.WriteOrder => Except.ok self

/-- `Deques::move_to_back_wo`: `entry.write_order_q_node().unwrap()`
(panic on `None`), then moves the node to the back of the write-order
queue only if that queue `contains` it.  The `debug_assert_eq!` on the
region is compiled out in release builds. -/
def Deques.move_to_back_wo {K V : Type} (self : Deques K) (entry : ValueEntry K V) :
    Except String (Deques K) :=
  match entry.write_order_q_node with
  | none => Except.error "called `Option::unwrap()` on a `None` value"
  | some node =>
      if self.write_order.contains node then
        Except.ok { self with write_order := self.write_order.move_to_back node }
      else Except.ok self

/-- `Deques::unlink_node_ao_from_deque`: unlinks and drops the node if
the supplied queue contains it, otherwise panics naming the queue and
printing the node. -/
def Deques.unlink_node_ao_from_deque {K : Type} [DebugFmt K] (deq_name : String)
    (deq : Deque (KeyHashDate K)) (node : DeqNode (KeyHashDate K)) :
    Except String (Deque (KeyHashDate K)) :=
  if deq.contains node then Except.ok (deq.unlink_and_drop node)
  else Except.error (unlinkPanicMsg deq_name node)

/-- `Deques::unlink_node_ao`: dispatches on the node's region tag to the
matching queue's named unlink; `WriteOrder` hits `unreachable!()`. -/
def Deques.unlink_node_ao {K : Type} [DebugFmt K] (self : Deques K)
    (node : DeqNode (KeyHashDate K)) : Except String (Deques K) :=
  match node.region with
  | CacheRegion.Window =>
      match Deques.unlink_node_ao_from_deque "window" self.window node with
      | Except.ok deq => Except.ok { self with window := deq }
      | Except.error e => Except.error e
  | CacheRegion.MainProbation =>
      match Deques.unlink_node_ao_from_deque "probation" self.probation node with
      | Except.ok deq => Except.ok { self with probation := deq }
      | Except.error e => Except.error e
  | CacheRegion.MainProtected =>
      match Deques.unlink_node_ao_from_deque "protected" self.«protected» node with
      | Except.ok deq => Except.ok { self with «protected» := deq }
      | Except.error e => Except.error e
  | CacheRegion.WriteOrder =>
      Except.error "internal error: entered unreachable code"

/-- `Deques::unlink_ao`: takes (consumes) the access-order
back-reference if present and unlinks the node from the queue its
region tag designates; absence is a no-op. -/
def Deques.unlink_ao {K V : Type} [DebugFmt K] (self : Deques K) (entry : ValueEntry K V) :
    Except String (Deques K × ValueEntry K V) :=
  match entry.take_access_order_q_node with
  | (none, entry) => Except.ok (self, entry)
  | (some node, entry) =>
      match self.unlink_node_ao node with
      | Except.ok dqs => Except.ok (dqs, entry)
      | Except.error e => Except.error e

/-- `Deques::unlink_ao_from_deque`: like `unlink_ao` but against a
caller-supplied named queue, so a membership failure panics. -/
def Deques.unlink_ao_from_deque {K V : Type} [DebugFmt K] (deq_name : String)
    (deq : Deque (KeyHashDate K)) (entry : ValueEntry K V) :
    Except String (Deque (KeyHashDate K) × ValueEntry K V) :=
  match entry.take_access_order_q_node with
  | (none, entry) => Except.ok (deq, entry)
  | (some node, entry) =>
      match Deques.unlink_node_ao_from_deque deq_name deq node with
      | Except.ok deq => Except.ok (deq, entry)
      | Except.error e => Except.error e

/-- `Deques::unlink_node_wo`: unlinks and drops the node if the supplied
write-order queue contains it, otherwise panics naming the queue and
printing the node.  The `debug_assert_eq!` on the region is compiled
out in release builds. -/
def Deques.unlink_node_wo {K : Type} [DebugFmt K] (deq : Deque (KeyDate K))
    (node : DeqNode (KeyDate K)) : Except String (Deque (KeyDate K)) :=
  if deq.contains node then Except.ok (deq.unlink_and_drop node)
  else Except.error (unlinkPanicMsg "write_order" node)

/-- `Deques::unlink_wo`: takes (consumes) the write-order back-reference
if present and unlinks the node from the supplied write-order queue;
absence is a no-op. -/
def Deques.unlink_wo {K V : Type} [DebugFmt K] (deq : Deque (KeyDate K))
    (entry : ValueEntry K V) : Except String (Deque (KeyDate K) × ValueEntry K V) :=
  match entry.take_write_order_q_node with
  | (none, entry) => Except.ok (deq, entry)
  | (some node, entry) =>
      match Deques.unlink_node_wo deq node with
      | Except.ok deq => Except.ok (deq, entry)
      | Except.error e => Except.error e

/-- The queue that `node`'s region tag designates inside the
access-order system contains `node`; `WriteOrder` designates no
access-order queue. -/
def Deques.contains_ao {K : Type} (self : Deques K) (node : DeqNode (KeyHashDate K)) : Bool :=
  match node.region with
  | CacheRegion.Window => self.window.contains node
  | CacheRegion.MainProbation => self.probation.contains node
  | CacheRegion.MainProtected => self.«protected».contains node
  | CacheRegion.WriteOrder => false

/-- `std::time::Duration`: seconds plus a sub-second nanosecond part. -/
structure Duration where
  secs : Nat
  nanos : Nat
deriving DecidableEq, Repr

/-- `Duration::from_secs`. -/
def Duration.from_secs (s : Nat) : Duration :=
  ⟨s, 0⟩

/-- Total length in nanoseconds, the basis of `Duration` comparison. -/
def Duration.toNanos (d : Duration) : Nat :=
  d.secs * 1000000000 + d.nanos

/-- `Duration` addition with nanosecond carry. -/
def Duration.add (a b : Duration) : Duration :=
  ⟨a.secs + b.secs + (a.nanos + b.nanos) / 1000000000, (a.nanos + b.nanos) % 1000000000⟩

/-- Modelled from the spec: the 1000-year expiration bound used by
`crate::common::builder_utils`, which is not under `src/`; the builder
tests pin the bound at `1000 * 365 * 24 * 3600` seconds. -/
def max_expiration : Duration :=
  Duration.from_secs (1000 * 365 * 24 * 3600)

/-- Checks the time-to-idle half of the expiration validation. -/
def ensure_tti (tti : Option Duration) : Except String Unit :=
  match tti with
  | some d =>
      if max_expiration.toNanos < d.toNanos then
        Except.error "time_to_idle is longer than 1000 years"
      else Except.ok ()
  | none => Except.ok ()

/-- Modelled from the spec:
`crate::common::builder_utils::ensure_expirations_or_panic` is not
under `src/`.  Per the spec and the builder tests, TTL and TTI, when
present, must each be at most 1000 years; violating the bound panics
with a message naming the offending option (`time_to_live` checked
first). -/
def ensure_expirations_or_panic (ttl tti : Option Duration) : Except String Unit :=
  match ttl with
  | some d =>
      if max_expiration.toNanos < d.toNanos then
        Except.error "time_to_live is longer than 1000 years"
      else ensure_tti tti
  | none => ensure_tti tti

/-- `CacheBuilder<K, V, C>` (`src/sync/builder.rs`).  The Rust type
parameter `C` is phantom (it only selects which `build` impl is
callable); the configuration state is these seven fields. -/
structure CacheBuilder (K V : Type) where
  max_capacity : Option Nat
  initial_capacity : Option Nat
  num_segments : Option Nat
  weigher : Option (K → V → Nat)
  time_to_live : Option Duration
  time_to_idle : Option Duration
  invalidator_enabled : Bool

/-- `impl Default for CacheBuilder`: everything unset, invalidation
support disabled. -/
def CacheBuilder.default (K V : Type) : CacheBuilder K V :=
  ⟨none, none, none, none, none, none, false⟩

/-- `CacheBuilder::new(max_capacity)`. -/
def CacheBuilder.new (K V : Type) (max_capacity : Nat) : CacheBuilder K V :=
  { CacheBuilder.default K V with max_capacity := some max_capacity }

/-- The `max_capacity` setter. -/
def CacheBuilder.set_max_capacity {K V : Type} (self : CacheBuilder K V)
    (max_capacity : Nat) : CacheBuilder K V :=
  { self with max_capacity := some max_capacity }

/-- The `initial_capacity` setter. -/
def CacheBuilder.set_initial_capacity {K V : Type} (self : CacheBuilder K V)
    (number_of_entries : Nat) : CacheBuilder K V :=
  { self with initial_capacity := some number_of_entries }

/-- The `weigher` setter. -/
def CacheBuilder.set_weigher {K V : Type} (self : CacheBuilder K V)
    (weigher : K → V → Nat) : CacheBuilder K V :=
  { self with weigher := some weigher }

/-- The `time_to_live` setter. -/
def CacheBuilder.set_time_to_live {K V : Type} (self : CacheBuilder K V)
    (duration : Duration) : CacheBuilder K V :=
  { self with time_to_live := some duration }

/-- The `time_to_idle` setter. -/
def CacheBuilder.set_time_to_idle {K V : Type} (self : CacheBuilder K V)
    (duration : Duration) : CacheBuilder K V :=
  { self with time_to_idle := some duration }

/-- `CacheBuilder::support_invalidation_closures`. -/
def CacheBuilder.support_invalidation_closures {K V : Type}
    (self : CacheBuilder K V) : CacheBuilder K V :=
  { self with invalidator_enabled := true }

/-- `CacheBuilder::segments(num_segments)`: `assert!(num_segments != 0)`
fires at call time; the returned segmented-mode builder keeps
max_capacity, initial_capacity, time_to_live, time_to_idle and the
invalidator flag, records the segment count, and resets `weigher` to
`None`. -/
def CacheBuilder.segments {K V : Type} (self : CacheBuilder K V)
    (num_segments : Nat) : Except String (CacheBuilder K V) :=
  if num_segments = 0 then
    Except.error "assertion failed: num_segments != 0"
  else
    Except.ok
      { max_capacity := self.max_capacity
        initial_capacity := self.initial_capacity
        num_segments := some num_segments
        weigher := none
        time_to_live := self.time_to_live
        time_to_idle := self.time_to_idle
        invalidator_enabled := self.invalidator_enabled }

/-- The parameters `CacheBuilder::build` hands to
`Cache::with_everything` (the cache engine itself is outside this
core). -/
structure Cache (K V : Type) where
  max_capacity : Option Nat
  initial_capacity : Option Nat
  weigher : Option (K → V → Nat)
  time_to_live : Option Duration
  time_to_idle : Option Duration
  invalidator_enabled : Bool

/-- `Cache::with_everything` as a record of the received parameters. -/
def Cache.with_everything {K V : Type} (max_capacity initial_capacity : Option Nat)
    (weigher : Option (K → V → Nat)) (time_to_live time_to_idle : Option Duration)
    (invalidator_enabled : Bool) : Cache K V :=
  ⟨max_capacity, initial_capacity, weigher, time_to_live, time_to_idle,
   invalidator_enabled⟩

/-- `CacheBuilder::build` (unsegmented impl): validates the expirations,
then constructs the cache from the recorded configuration. -/
def CacheBuilder.build {K V : Type} (self : CacheBuilder K V) :
    Except String (Cache K V) :=
  match ensure_expirations_or_panic self.time_to_live self.time_to_idle with
  | Except.error e => Except.error e
  | Except.ok _ =>
      Except.ok (Cache.with_everything self.max_capacity self.initial_capacity
        self.weigher self.time_to_live self.time_to_idle self.invalidator_enabled)

/-- `CacheBuilder::build_with_hasher` (unsegmented impl): identical
validation and construction; the hasher `S` is opaque to this core. -/
def CacheBuilder.build_with_hasher {K V S : Type} (self : CacheBuilder K V)
    (_hasher : S) : Except String (Cache K V) :=
  match ensure_expirations_or_panic self.time_to_live self.time_to_idle with
  | Except.error e => Except.error e
  | Except.ok _ =>
      Except.ok (Cache.with_everything self.max_capacity self.initial_capacity
        self.weigher self.time_to_live self.time_to_idle self.invalidator_enabled)

/-- `true` exactly when the optional duration respects the 1000-year
bound. -/
def within_expiration_bound (d : Option Duration) : Bool :=
  match d with
  | some d => d.toNanos ≤ max_expiration.toNanos
  | none => true

theorem ensure_tti_isOk (tti : Option Duration) :
    (ensure_tti tti).isOk = within_expiration_bound tti := by
  cases tti with
  | none => rfl
  | some d =>
      simp only [ensure_tti, within_expiration_bound]
      split
      · next h => simp [Except.isOk, Except.toBool, Nat.not_le_of_lt h]
      · next h => simp [Except.isOk, Except.toBool, Nat.le_of_not_lt h]

theorem ensure_expirations_isOk (ttl tti : Option Duration) :
    (ensure_expirations_or_panic ttl tti).isOk =
      (within_expiration_bound ttl && within_expiration_bound tti) := by
  cases ttl with
  | none => simp [ensure_expirations_or_panic, within_expiration_bound, ensure_tti_isOk]
  | some d =>
      simp only [ensure_expirations_or_panic, within_expiration_bound]
      split
      · next h => simp [Except.isOk, Except.toBool, Nat.not_le_of_lt h]
      · next h =>
          rw [ensure_tti_isOk]
          cases tti <;> simp [Nat.le_of_not_lt h, within_expiration_bound]

/-- C9: for every region among `Window`, `MainProbation` and
`MainProtected`, `push_back_ao` creates a node tagged with that region,
appends it to that region's queue, and stores the node reference as the
entry's access-order back-reference; passing `WriteOrder` is a fatal
programming error (`unreachable!()`). -/
theorem push_back_ao_appends_tags_and_links {K V : Type} (dq : Deques K)
    (kh : KeyHashDate K) (nid : Nat) (entry : ValueEntry K V) :
    (dq.push_back_ao CacheRegion.Window kh nid entry =
      Except.ok
        ({ dq with window :=
            { dq.window with nodes := dq.window.nodes ++ [⟨nid, CacheRegion.Window, kh⟩] } },
         { entry with access_order_q_node := some ⟨nid, CacheRegion.Window, kh⟩ })) ∧
    (dq.push_back_ao CacheRegion.MainProbation kh nid entry =
      Except.ok
        ({ dq with probation :=
            { dq.probation with nodes := dq.probation.nodes ++ [⟨nid, CacheRegion.MainProbation, kh⟩] } },
         { entry with access_order_q_node := some ⟨nid, CacheRegion.MainProbation, kh⟩ })) ∧
    (dq.push_back_ao CacheRegion.MainProtected kh nid entry =
      Except.ok
        ({ dq with «protected» :=
            { dq.«protected» with nodes := dq.«protected».nodes ++ [⟨nid, CacheRegion.MainProtected, kh⟩] } },
         { entry with access_order_q_node := some ⟨nid, CacheRegion.MainProtected, kh⟩ })) ∧
    (dq.push_back_ao CacheRegion.WriteOrder kh nid entry =
      Except.error "internal error: entered unreachable code") :=
  ⟨rfl, rfl, rfl, rfl⟩

/-- C2 counterexample: on an entry whose access-order back-reference is
absent, `move_to_back_ao` is not a silent no-op — it panics
(`Option::unwrap` on `None`), refuting the claim at this concrete
input. -/
theorem move_to_back_ao_absent_backref_cex :
    ((Deques.default Nat).move_to_back_ao
      (⟨0, none, none⟩ : ValueEntry Nat Nat)).isOk = false := by
  decide

/-- C2 amended: when the access-order back-reference is absent,
`move_to_back_ao` panics (it unwraps the absent reference) instead of
being a silent no-op; likewise `move_to_back_wo` when the write-order
back-reference is absent. -/
theorem move_to_back_absent_backref_panics {K V : Type} (dq : Deques K)
    (entry : ValueEntry K V) :
    (entry.access_order_q_node = none →
      dq.move_to_back_ao entry =
        Except.error "called `Option::unwrap()` on a `None` value") ∧
    (entry.write_order_q_node = none →
      dq.move_to_back_wo entry =
        Except.error "called `Option::unwrap()` on a `None` value") := by
  constructor
  · intro h
    simp [Deques.move_to_back_ao, h]
  · intro h
    simp [Deques.move_to_back_wo, h]

/-- C2 amended, witness at a concrete input. -/
theorem move_to_back_absent_backref_panics_witness :
    (Deques.default Nat).move_to_back_ao (⟨7, none, none⟩ : ValueEntry Nat Nat) =
      Except.error "called `Option::unwrap()` on a `None` value" :=
  (move_to_back_absent_backref_panics (Deques.default Nat) ⟨7, none, none⟩).1 rfl

/-- C5: when the back-reference is present but the queue designated by
the node's region tag does not contain the node, `move_to_back_ao`
returns successfully with all queues unchanged; the same for
`move_to_back_wo` when the write-order queue does not contain the
node. -/
theorem move_to_back_membership_failure_noop {K V : Type} (dq : Deques K)
    (entry : ValueEntry K V) :
    (∀ node, entry.access_order_q_node = some node →
      dq.contains_ao node = false → dq.move_to_back_ao entry = Except.ok dq) ∧
    (∀ node, entry.write_order_q_node = some node →
      dq.write_order.contains node = false →
      dq.move_to_back_wo entry = Except.ok dq) := by
  constructor
  · intro node h hc
    simp only [Deques.move_to_back_ao, h]
    cases hr : node.region <;>
      simp_all [Deques.contains_ao]
  · intro node h hc
    simp [Deques.move_to_back_wo, h, hc]

/-- C5 witness at a concrete input: a `Window`-tagged node absent from
the (empty) window queue, and a write-order node absent from the
(empty) write-order queue. -/
theorem move_to_back_membership_failure_noop_witness :
    (Deques.default Nat).move_to_back_ao
      (⟨0, some ⟨3, CacheRegion.Window, ⟨1, 2, none⟩⟩, none⟩ : ValueEntry Nat Nat) =
        Except.ok (Deques.default Nat) ∧
    (Deques.default Nat).move_to_back_wo
      (⟨0, none, some ⟨4, CacheRegion.WriteOrder, ⟨1, none⟩⟩⟩ : ValueEntry Nat Nat) =
        Except.ok (Deques.default Nat) :=
  ⟨(move_to_back_membership_failure_noop (Deques.default Nat)
      ⟨0, some ⟨3, CacheRegion.Window, ⟨1, 2, none⟩⟩, none⟩).1
      ⟨3, CacheRegion.Window, ⟨1, 2, none⟩⟩ rfl (by decide),
   (move_to_back_membership_failure_noop (Deques.default Nat)
      ⟨0, none, some ⟨4, CacheRegion.WriteOrder, ⟨1, none⟩⟩⟩).2
      ⟨4, CacheRegion.WriteOrder, ⟨1, none⟩⟩ rfl (by decide)⟩

/-- C1 counterexample: an entry whose back-reference designates the
window queue while that queue no longer contains its node; the plain
`unlink_ao` does not treat this as benign — it panics, refuting the
claim at this concrete input. -/
theorem unlink_ao_divergence_cex :
    ((Deques.default Nat).unlink_ao
      (⟨0, some ⟨0, CacheRegion.Window, ⟨0, 0, none⟩⟩, none⟩ :
        ValueEntry Nat Nat)).isOk = false := by
  decide

/-- C1 amended: the plain `unlink_ao`/`unlink_wo` treat an absent
back-reference as a benign no-op, but when the back-reference is
present and the queue it designates does not contain the node, they
fail fatally (panic) rather than doing nothing. -/
theorem unlink_plain_absent_ok_divergence_panics {K V : Type} [DebugFmt K]
    (dq : Deques K) (deqw : Deque (KeyDate K)) (entry : ValueEntry K V) :
    (entry.access_order_q_node = none →
      dq.unlink_ao entry = Except.ok (dq, { entry with access_order_q_node := none })) ∧
    (∀ node, entry.access_order_q_node = some node →
      dq.contains_ao node = false → (dq.unlink_ao entry).isOk = false) ∧
    (entry.write_order_q_node = none →
      Deques.unlink_wo deqw entry =
        Except.ok (deqw, { entry with write_order_q_node := none })) ∧
    (∀ node, entry.write_order_q_node = some node →
      deqw.contains node = false → (Deques.unlink_wo deqw entry).isOk = false) := by
  refine ⟨?_, ?_, ?_, ?_⟩
  · intro h
    simp [Deques.unlink_ao, ValueEntry.take_access_order_q_node, h]
  · intro node h hc
    simp only [Deques.unlink_ao, ValueEntry.take_access_order_q_node, h]
    cases hr : node.region <;>
      simp_all [Deques.unlink_node_ao, Deques.unlink_node_ao_from_deque,
        Deques.contains_ao, Except.isOk, Except.toBool]
  · intro h
    simp [Deques.unlink_wo, ValueEntry.take_write_order_q_node, h]
  · intro node h hc
    simp [Deques.unlink_wo, ValueEntry.take_write_order_q_node, h,
      Deques.unlink_node_wo, hc, Except.isOk, Except.toBool]

/-- C1 amended, witness at concrete inputs: absent back-reference is a
no-op; a diverged back-reference panics. -/
theorem unlink_plain_witness :
    (Deques.default Nat).unlink_ao (⟨9, none, none⟩ : ValueEntry Nat Nat) =
      Except.ok (Deques.default Nat, ⟨9, none, none⟩) ∧
    ((Deques.default Nat).unlink_ao
      (⟨0, some ⟨5, CacheRegion.MainProbation, ⟨1, 2, none⟩⟩, none⟩ :
        ValueEntry Nat Nat)).isOk = false :=
  ⟨(unlink_plain_absent_ok_divergence_panics (Deques.default Nat)
      (Deque.new CacheRegion.WriteOrder) (⟨9, none, none⟩ : ValueEntry Nat Nat)).1 rfl,
   (unlink_plain_absent_ok_divergence_panics (Deques.default Nat)
      (Deque.new CacheRegion.WriteOrder)
      (⟨0, some ⟨5, CacheRegion.MainProbation, ⟨1, 2, none⟩⟩, none⟩ :
        ValueEntry Nat Nat)).2.1
      ⟨5, CacheRegion.MainProbation, ⟨1, 2, none⟩⟩ rfl (by decide)⟩

/-- C3 counterexample: an entry that already holds an access-order
back-reference; `push_back_ao` succeeds anyway (no rejection, no
error), refuting the claim at this concrete input. -/
theorem push_back_ao_relink_not_rejected_cex :
    ((Deques.default Nat).push_back_ao CacheRegion.Window ⟨1, 1, none⟩ 5
      (⟨0, some ⟨0, CacheRegion.Window, ⟨0, 0, none⟩⟩, none⟩ :
        ValueEntry Nat Nat)).isOk = true := by
  decide

/-- C3 amended: `push_back_ao` on an entry that already holds an
access-order back-reference is not rejected — it succeeds, appends a
fresh node and silently overwrites the entry's back-reference (the old
node stays in its queue); `push_back_wo` likewise overwrites an
existing write-order back-reference.  The at-most-one-back-reference
invariant is a caller obligation the operation does not enforce. -/
theorem push_back_relink_overwrites {K V : Type} (dq : Deques K)
    (entry : ValueEntry K V) (region : CacheRegion) (kh : KeyHashDate K)
    (khw : KeyDate K) (nid nidw : Nat)
    (hr : region ≠ CacheRegion.WriteOrder)
    (_hlinked : entry.access_order_q_node.isSome = true)
    (_hlinkedw : entry.write_order_q_node.isSome = true) :
    (∃ dq', dq.push_back_ao region kh nid entry =
      Except.ok (dq', { entry with access_order_q_node := some ⟨nid, region, kh⟩ })) ∧
    (dq.push_back_wo khw nidw entry).2 =
      { entry with write_order_q_node := some ⟨nidw, CacheRegion.WriteOrder, khw⟩ } := by
  constructor
  · cases region with
    | Window => exact ⟨_, rfl⟩
    | MainProbation => exact ⟨_, rfl⟩
    | MainProtected => exact ⟨_, rfl⟩
    | WriteOrder => exact absurd rfl hr
  · rfl

/-- C3 amended, witness at a concrete already-linked entry. -/
theorem push_back_relink_overwrites_witness :
    (∃ dq', (Deques.default Nat).push_back_ao CacheRegion.Window ⟨1, 1, none⟩ 5
      (⟨0, some ⟨0, CacheRegion.Window, ⟨0, 0, none⟩⟩,
         some ⟨1, CacheRegion.WriteOrder, ⟨0, none⟩⟩⟩ : ValueEntry Nat Nat) =
      Except.ok (dq',
        ⟨0, some ⟨5, CacheRegion.Window, ⟨1, 1, none⟩⟩,
           some ⟨1, CacheRegion.WriteOrder, ⟨0, none⟩⟩⟩)) ∧
    ((Deques.default Nat).push_back_wo ⟨2, none⟩ 6
      (⟨0, some ⟨0, CacheRegion.Window, ⟨0, 0, none⟩⟩,
         some ⟨1, CacheRegion.WriteOrder, ⟨0, none⟩⟩⟩ : ValueEntry Nat Nat)).2 =
      ⟨0, some ⟨0, CacheRegion.Window, ⟨0, 0, none⟩⟩,
         some ⟨6, CacheRegion.WriteOrder, ⟨2, none⟩⟩⟩ :=
  push_back_relink_overwrites (Deques.default Nat)
    ⟨0, some ⟨0, CacheRegion.Window, ⟨0, 0, none⟩⟩,
       some ⟨1, CacheRegion.WriteOrder, ⟨0, none⟩⟩⟩
    CacheRegion.Window ⟨1, 1, none⟩ ⟨2, none⟩ 5 6 (by decide) rfl rfl

/-- C6: the named-queue unlinks, when the entry (or caller) supplies a
node the given queue does not contain, fail fatally with a message that
contains the queue's name and the node's payload contents. -/
theorem unlink_named_queue_divergence_panics {K V : Type} [DebugFmt K]
    (deq_name : String) (deq : Deque (KeyHashDate K)) (deqw : Deque (KeyDate K))
    (entry : ValueEntry K V) (node : DeqNode (KeyHashDate K))
    (nodew : DeqNode (KeyDate K))
    (h1 : entry.access_order_q_node = some node)
    (h2 : deq.contains node = false)
    (h3 : deqw.contains nodew = false) :
    (∃ msg, Deques.unlink_ao_from_deque (V := V) deq_name deq entry = Except.error msg ∧
      (∃ s t, msg = s ++ deq_name ++ t) ∧
      (∃ u w, msg = u ++ DebugFmt.fmt node.element ++ w)) ∧
    (∃ msg, Deques.unlink_node_wo deqw nodew = Except.error msg ∧
      (∃ s t, msg = s ++ "write_order" ++ t) ∧
      (∃ u w, msg = u ++ DebugFmt.fmt nodew.element ++ w)) := by
  constructor
  · refine ⟨unlinkPanicMsg deq_name node, ?_, ?_, ?_⟩
    · simp [Deques.unlink_ao_from_deque, ValueEntry.take_access_order_q_node, h1,
        Deques.unlink_node_ao_from_deque, h2]
    · exact ⟨"unlink_node - node is not a member of ", " deque. " ++ node.debugFmt,
        by simp only [unlinkPanicMsg, String.append_assoc]⟩
    · exact ⟨"unlink_node - node is not a member of " ++ deq_name ++ " deque. " ++
          "DeqNode \x7b element: ", " \x7d",
        by simp only [unlinkPanicMsg, DeqNode.debugFmt, String.append_assoc]⟩
  · refine ⟨unlinkPanicMsg "write_order" nodew, ?_, ?_, ?_⟩
    · simp only [Deques.unlink_node_wo, h3, Bool.false_eq_true, if_false]
    · exact ⟨"unlink_node - node is not a member of ", " deque. " ++ nodew.debugFmt,
        by simp only [unlinkPanicMsg, String.append_assoc]⟩
    · exact ⟨"unlink_node - node is not a member of " ++ "write_order" ++ " deque. " ++
          "DeqNode \x7b element: ", " \x7d",
        by simp only [unlinkPanicMsg, DeqNode.debugFmt, String.append_assoc]⟩

/-- C6 witness at a concrete input: empty queues that do not contain
the supplied nodes. -/
theorem unlink_named_queue_divergence_panics_witness :
    (∃ msg, Deques.unlink_ao_from_deque (V := Nat) "window"
        (Deque.new CacheRegion.Window)
        (⟨0, some ⟨2, CacheRegion.Window, ⟨8, 3, none⟩⟩, none⟩ : ValueEntry Nat Nat) =
        Except.error msg ∧
      (∃ s t, msg = s ++ "window" ++ t) ∧
      (∃ u w, msg = u ++ DebugFmt.fmt (⟨8, 3, none⟩ : KeyHashDate Nat) ++ w)) ∧
    (∃ msg, Deques.unlink_node_wo (Deque.new CacheRegion.WriteOrder)
        (⟨2, CacheRegion.WriteOrder, (⟨8, none⟩ : KeyDate Nat)⟩) = Except.error msg ∧
      (∃ s t, msg = s ++ "write_order" ++ t) ∧
      (∃ u w, msg = u ++ DebugFmt.fmt (⟨8, none⟩ : KeyDate Nat) ++ w)) :=
  unlink_named_queue_divergence_panics "window" (Deque.new CacheRegion.Window)
    (Deque.new CacheRegion.WriteOrder)
    (⟨0, some ⟨2, CacheRegion.Window, ⟨8, 3, none⟩⟩, none⟩ : ValueEntry Nat Nat)
    ⟨2, CacheRegion.Window, ⟨8, 3, none⟩⟩ ⟨2, CacheRegion.WriteOrder, ⟨8, none⟩⟩
    rfl (by decide) (by decide)

/-- C4 counterexample: a zero segment count is not surfaced at
`build()` time — `segments(0)` already fails fatally at the time the
option is set, refuting the claim at this concrete input. -/
theorem segments_zero_fails_at_call_cex :
    ((CacheBuilder.default Nat Nat).segments 0).isOk = false := by
  decide

/-- C4 amended: the TTL/TTI 1000-year bound is checked at
`build()`/`build_with_hasher()` time and not by the setters (which
record any duration without failing), while a zero segment count fails
fatally at `segments(0)` call time, not at build time. -/
theorem builder_validation_timing {K V S : Type} (b : CacheBuilder K V)
    (d : Duration) (hasher : S) :
    ((b.set_time_to_live d).time_to_live = some d) ∧
    ((b.set_time_to_idle d).time_to_idle = some d) ∧
    (b.build.isOk =
      (within_expiration_bound b.time_to_live &&
       within_expiration_bound b.time_to_idle)) ∧
    ((b.build_with_hasher hasher).isOk =
      (within_expiration_bound b.time_to_live &&
       within_expiration_bound b.time_to_idle)) ∧
    (b.segments 0 = Except.error "assertion failed: num_segments != 0") := by
  refine ⟨rfl, rfl, ?_, ?_, rfl⟩
  · rw [← ensure_expirations_isOk b.time_to_live b.time_to_idle]
    unfold CacheBuilder.build
    cases ensure_expirations_or_panic b.time_to_live b.time_to_idle <;> rfl
  · rw [← ensure_expirations_isOk b.time_to_live b.time_to_idle]
    unfold CacheBuilder.build_with_hasher
    cases ensure_expirations_or_panic b.time_to_live b.time_to_idle <;> rfl

/-- C7: at `build()` time, a TTL or TTI of exactly 1000 years succeeds,
while 1000 years plus one second fails fatally with a message naming
the offending option. -/
theorem ttl_tti_thousand_year_boundary :
    (((CacheBuilder.new Nat Nat 100).set_time_to_live
        (Duration.from_secs (1000 * 365 * 24 * 3600))).build).isOk = true ∧
    (((CacheBuilder.new Nat Nat 100).set_time_to_idle
        (Duration.from_secs (1000 * 365 * 24 * 3600))).build).isOk = true ∧
    ((CacheBuilder.new Nat Nat 100).set_time_to_live
        (Duration.add (Duration.from_secs (1000 * 365 * 24 * 3600))
          (Duration.from_secs 1))).build =
      Except.error "time_to_live is longer than 1000 years" ∧
    ((CacheBuilder.new Nat Nat 100).set_time_to_idle
        (Duration.add (Duration.from_secs (1000 * 365 * 24 * 3600))
          (Duration.from_secs 1))).build =
      Except.error "time_to_idle is longer than 1000 years" :=
  ⟨rfl, rfl, rfl, rfl⟩

/-- C8: for every builder state and every `n ≥ 1`, `segments(n)` drops
any previously configured weigher, carries over `max_capacity`,
`initial_capacity`, `time_to_live`, `time_to_idle` and the
invalidation-support flag unchanged, and records `n` as the segment
count. -/
theorem segments_drops_weigher_keeps_rest {K V : Type} (b : CacheBuilder K V)
    (n : Nat) (h : 1 ≤ n) :
    ∃ b', b.segments n = Except.ok b' ∧ b'.weigher = none ∧
      b'.max_capacity = b.max_capacity ∧
      b'.initial_capacity = b.initial_capacity ∧
      b'.time_to_live = b.time_to_live ∧
      b'.time_to_idle = b.time_to_idle ∧
      b'.invalidator_enabled = b.invalidator_enabled ∧
      b'.num_segments = some n := by
  refine ⟨{ max_capacity := b.max_capacity, initial_capacity := b.initial_capacity,
            num_segments := some n, weigher := none, time_to_live := b.time_to_live,
            time_to_idle := b.time_to_idle, invalidator_enabled := b.invalidator_enabled },
          ?_, rfl, rfl, rfl, rfl, rfl, rfl, rfl⟩
  unfold CacheBuilder.segments
  rw [if_neg (by omega)]

/-- C8 witness: a builder with a weigher configured, segmented into 16. -/
theorem segments_drops_weigher_keeps_rest_witness :
    1 ≤ 16 ∧
    ∃ b', ((CacheBuilder.new Nat Nat 100).set_weigher (fun _ _ => 1)).segments 16 =
        Except.ok b' ∧ b'.weigher = none ∧
      b'.max_capacity = ((CacheBuilder.new Nat Nat 100).set_weigher (fun _ _ => 1)).max_capacity ∧
      b'.initial_capacity = ((CacheBuilder.new Nat Nat 100).set_weigher (fun _ _ => 1)).initial_capacity ∧
      b'.time_to_live = ((CacheBuilder.new Nat Nat 100).set_weigher (fun _ _ => 1)).time_to_live ∧
      b'.time_to_idle = ((CacheBuilder.new Nat Nat 100).set_weigher (fun _ _ => 1)).time_to_idle ∧
      b'.invalidator_enabled = ((CacheBuilder.new Nat Nat 100).set_weigher (fun _ _ => 1)).invalidator_enabled ∧
      b'.num_segments = some 16 :=
  ⟨by decide,
   segments_drops_weigher_keeps_rest
     ((CacheBuilder.new Nat Nat 100).set_weigher (fun _ _ => 1)) 16 (by decide)⟩

/-- C10: each builder setter changes only its own configuration field:
every other field of the builder is left unchanged (and the setter
records its own argument). -/
theorem builder_setters_frame {K V : Type} (b : CacheBuilder K V)
    (m i : Nat) (w : K → V → Nat) (d e : Duration) :
    ((b.set_max_capacity m).max_capacity = some m ∧
     (b.set_max_capacity m).initial_capacity = b.initial_capacity ∧
     (b.set_max_capacity m).num_segments = b.num_segments ∧
     (b.set_max_capacity m).weigher = b.weigher ∧
     (b.set_max_capacity m).time_to_live = b.time_to_live ∧
     (b.set_max_capacity m).time_to_idle = b.time_to_idle ∧
     (b.set_max_capacity m).invalidator_enabled = b.invalidator_enabled) ∧
    ((b.set_initial_capacity i).initial_capacity = some i ∧
     (b.set_initial_capacity i).max_capacity = b.max_capacity ∧
     (b.set_initial_capacity i).num_segments = b.num_segments ∧
     (b.set_initial_capacity i).weigher = b.weigher ∧
     (b.set_initial_capacity i).time_to_live = b.time_to_live ∧
     (b.set_initial_capacity i).time_to_idle = b.time_to_idle ∧
     (b.set_initial_capacity i).invalidator_enabled = b.invalidator_enabled) ∧
    ((b.set_weigher w).weigher = some w ∧
     (b.set_weigher w).max_capacity = b.max_capacity ∧
     (b.set_weigher w).initial_capacity = b.initial_capacity ∧
     (b.set_weigher w).num_segments = b.num_segments ∧
     (b.set_weigher w).time_to_live = b.time_to_live ∧
     (b.set_weigher w).time_to_idle = b.time_to_idle ∧
     (b.set_weigher w).invalidator_enabled = b.invalidator_enabled) ∧
    ((b.set_time_to_live d).time_to_live = some d ∧
     (b.set_time_to_live d).max_capacity = b.max_capacity ∧
     (b.set_time_to_live d).initial_capacity = b.initial_capacity ∧
     (b.set_time_to_live d).num_segments = b.num_segments ∧
     (b.set_time_to_live d).weigher = b.weigher ∧
     (b.set_time_to_live d).time_to_idle = b.time_to_idle ∧
     (b.set_time_to_live d).invalidator_enabled = b.invalidator_enabled) ∧
    ((b.set_time_to_idle e).time_to_idle = some e ∧
     (b.set_time_to_idle e).max_capacity = b.max_capacity ∧
     (b.set_time_to_idle e).initial_capacity = b.initial_capacity ∧
     (b.set_time_to_idle e).num_segments = b.num_segments ∧
     (b.set_time_to_idle e).weigher = b.weigher ∧
     (b.set_time_to_idle e).time_to_live = b.time_to_live ∧
     (b.set_time_to_idle e).invalidator_enabled = b.invalidator_enabled) ∧
    (b.support_invalidation_closures.invalidator_enabled = true ∧
     b.support_invalidation_closures.max_capacity = b.max_capacity ∧
     b.support_invalidation_closures.initial_capacity = b.initial_capacity ∧
     b.support_invalidation_closures.num_segments = b.num_segments ∧
     b.support_invalidation_closures.weigher = b.weigher ∧
     b.support_invalidation_closures.time_to_live = b.time_to_live ∧
     b.support_invalidation_closures.time_to_idle = b.time_to_idle) :=
  ⟨⟨rfl, rfl, rfl, rfl, rfl, rfl, rfl⟩, ⟨rfl, rfl, rfl, rfl, rfl, rfl, rfl⟩,
   ⟨rfl, rfl, rfl, rfl, rfl, rfl, rfl⟩, ⟨rfl, rfl, rfl, rfl, rfl, rfl, rfl⟩,
   ⟨rfl, rfl, rfl, rfl, rfl, rfl, rfl⟩, ⟨rfl, rfl, rfl, rfl, rfl, rfl, rfl⟩⟩

end Moka
